import Mathlib

/-!
Verification development for the starchart service: a shallow embedding of
the cache engine, retention sweeper, promotion workflow, request validation
and the visibility/projection/marker-size pipeline, together with theorems
settling the specification claims about them.

Numeric modelling conventions:
* Python `float` request coordinates and catalog magnitudes are modelled
  as rationals (`ℚ`); the projection trigonometry is modelled over `ℝ`.
* `datetime` instants are modelled by explicit calendar fields plus an
  epoch-minute encoding (proleptic Gregorian, Hinnant day-count algorithm).
* The SQL stores are modelled as lists of rows in insertion order together
  with a fresh-identifier counter; `query(...).first()` is `List.find?`.
* The matplotlib raster step and the Skyfield alt/az resolution are opaque
  to every claim, so the generation pipeline beyond the `datetime`
  construction is a function parameter of the model.
-/

namespace Starchart

/-- Bytes of a PNG image, modelled as a list of byte values. -/
abbrev Bytes := List Nat

/-! ## Calendar arithmetic (CPython `datetime` constructibility and epoch encoding) -/

/-- Gregorian leap-year rule, as used by CPython `datetime`. -/
def isLeap (y : ℤ) : Bool :=
  y % 4 == 0 && (y % 100 != 0 || y % 400 == 0)

/-- Number of days in a month of a given year. -/
def daysInMonth (y m : ℤ) : ℤ :=
  if m == 2 then (if isLeap y then 29 else 28)
  else if m == 4 || m == 6 || m == 9 || m == 11 then 30
  else 31

/-- Whether `datetime.date(y, m, d)` is constructible: CPython requires
`MINYEAR = 1 ≤ y ≤ 9999 = MAXYEAR`, `1 ≤ m ≤ 12`, and `d` within the month. -/
def dateValid (y m d : ℤ) : Bool :=
  decide (1 ≤ y) && decide (y ≤ 9999) &&
  decide (1 ≤ m) && decide (m ≤ 12) &&
  decide (1 ≤ d) && decide (d ≤ daysInMonth y m)

/-- Whether `datetime(y, m, d, h, mi)` is constructible. -/
def datetimeValid (y m d h mi : ℤ) : Bool :=
  dateValid y m d &&
  decide (0 ≤ h) && decide (h ≤ 23) &&
  decide (0 ≤ mi) && decide (mi ≤ 59)

/-- Days since 1970-01-01 of a proleptic Gregorian date (Hinnant's
`days_from_civil` algorithm, truncated integer division). -/
def daysFromCivil (y m d : ℤ) : ℤ :=
  let y' := if m ≤ 2 then y - 1 else y
  let era := (if 0 ≤ y' then y' else y' - 399) / 400
  let yoe := y' - era * 400
  let mp := (m + 9) % 12
  let doy := (153 * mp + 2) / 5 + d - 1
  let doe := yoe * 365 + yoe / 4 - yoe / 100 + doy
  era * 146097 + doe - 719468

/-- Minutes since the Unix epoch of a naive (wall-clock) datetime. -/
def epochMinutes (y m d h mi : ℤ) : ℤ :=
  daysFromCivil y m d * 1440 + h * 60 + mi

/-- A Python `datetime` value: wall-clock fields plus an optional fixed
UTC offset in whole hours (`none` models a naive datetime, `some o` models
`tzinfo = timezone(timedelta(hours=o))`). -/
structure AwareDateTime where
  year : ℤ
  month : ℤ
  day : ℤ
  hour : ℤ
  minute : ℤ
  offsetHours : Option ℤ
deriving DecidableEq

/-- UTC-normalized instant of a datetime, in minutes since the epoch
(a naive datetime is read as UTC, matching `datetime.timestamp` semantics
only for aware values, which is all the development uses it for). -/
def AwareDateTime.utcEpochMinutes (dt : AwareDateTime) : ℤ :=
  epochMinutes dt.year dt.month dt.day dt.hour dt.minute - 60 * dt.offsetHours.getD 0

/-! ## Request schema (`app/schemas/starmap.py`) -/

/-- `GenerateRequest`: the request body for star-map generation. -/
structure GenerateRequest where
  latitude : ℚ
  longitude : ℚ
  year : ℤ
  month : ℤ
  day : ℤ
  hour : ℤ
  minute : ℤ
  timezone_offset : ℤ
  title : Option String
deriving DecidableEq

/-- The pydantic `Field` range checks on `GenerateRequest`:
latitude ±90, longitude ±180, year 1900–2100, month 1–12, day 1–31,
hour 0–23, minute 0–59, offset −12..14, title length ≤ 255. -/
def validRequest (r : GenerateRequest) : Bool :=
  decide (-90 ≤ r.latitude) && decide (r.latitude ≤ 90) &&
  decide (-180 ≤ r.longitude) && decide (r.longitude ≤ 180) &&
  decide (1900 ≤ r.year) && decide (r.year ≤ 2100) &&
  decide (1 ≤ r.month) && decide (r.month ≤ 12) &&
  decide (1 ≤ r.day) && decide (r.day ≤ 31) &&
  decide (0 ≤ r.hour) && decide (r.hour ≤ 23) &&
  decide (0 ≤ r.minute) && decide (r.minute ≤ 59) &&
  decide (-12 ≤ r.timezone_offset) && decide (r.timezone_offset ≤ 14) &&
  (match r.title with
   | none => true
   | some t => decide (t.length ≤ 255))

/-! ## Cache and storage stores (`app/models/cache.py`, `app/models/starmap.py`) -/

/-- A row of the `cached_starmaps` SQLite table. -/
structure CachedStarmap where
  id : Nat
  latitude : ℚ
  longitude : ℚ
  year : ℤ
  month : ℤ
  day : ℤ
  hour : ℤ
  minute : ℤ
  timezone_offset : ℤ
  image_data : Bytes
  created_at : ℤ
deriving DecidableEq

/-- The cache database: rows in insertion order plus a fresh-id counter
(modelling uuid generation at insert time). -/
structure CacheDB where
  entries : List CachedStarmap
  nextId : Nat
deriving DecidableEq

/-- The empty cache database. -/
def emptyCache : CacheDB := ⟨[], 0⟩

/-- A row of the permanent `starmaps` table. -/
structure Starmap where
  id : Nat
  latitude : ℚ
  longitude : ℚ
  observed_at : AwareDateTime
  timezone_offset : ℤ
  title : Option String
  image_data : Bytes
  created_at : ℤ
deriving DecidableEq

/-- The permanent-storage database. -/
structure StorageDB where
  entries : List Starmap
  nextId : Nat
deriving DecidableEq

/-- The empty storage database. -/
def emptyStorage : StorageDB := ⟨[], 0⟩

/-! ## Generator (`app/services/generator.py`) -/

/-- Errors raised inside the generation pipeline: `InvalidInstant` for a
`datetime`/ephemeris failure, `GenerationFailure` for any other failure of
resolve/project/render. -/
inductive GenError where
  | invalidInstant
  | generationFailure
deriving DecidableEq

/-- The arguments of `StarMapGenerator.generate`. -/
structure GenParams where
  latitude : ℚ
  longitude : ℚ
  year : ℤ
  month : ℤ
  day : ℤ
  hour : ℤ
  minute : ℤ
  timezone_offset : ℤ
  title : String
deriving DecidableEq

/-- The limiting magnitude constant `StarMapGenerator.LIMITING_MAGNITUDE`. -/
def LIMITING_MAGNITUDE : ℚ := 6

/-- A catalog star after position resolution: apparent altitude and azimuth
in degrees, plus catalog magnitude. -/
structure ObservedStar where
  alt : ℚ
  az : ℚ
  magnitude : ℚ
deriving DecidableEq

/-- The visibility filter of `StarMapGenerator.generate`:
`visible = (alt_deg > 0) & (stars.magnitude <= LIMITING_MAGNITUDE)`. -/
def visibleStars (stars : List ObservedStar) : List ObservedStar :=
  stars.filter fun s => decide (s.alt > 0) && decide (s.magnitude ≤ LIMITING_MAGNITUDE)

/-- The marker-size formula of `StarMapGenerator.generate`:
`sizes = (LIMITING_MAGNITUDE - magnitudes + 1) ** 2 * 2`. -/
def markerSize (m : ℚ) : ℚ :=
  (LIMITING_MAGNITUDE - m + 1) ^ 2 * 2

/-- Degrees to radians, `np.radians`. -/
noncomputable def radians (deg : ℝ) : ℝ := deg * (Real.pi / 180)

/-- Stereographic projection radius of `StarMapGenerator.generate`:
`r = np.cos(alt_rad) / (1 + np.sin(alt_rad))` with `alt` in degrees. -/
noncomputable def projR (alt : ℝ) : ℝ :=
  Real.cos (radians alt) / (1 + Real.sin (radians alt))

/-- Projected x coordinate: `x = r * np.sin(az_rad)`. -/
noncomputable def projX (alt az : ℝ) : ℝ :=
  projR alt * Real.sin (radians az)

/-- Projected y coordinate: `y = -r * np.cos(az_rad)`. -/
noncomputable def projY (alt az : ℝ) : ℝ :=
  -(projR alt * Real.cos (radians az))

/-- `StarMapGenerator.generate`: constructs
`datetime(year, month, day, hour, minute, tzinfo=timezone(timedelta(hours=timezone_offset)))`
(raising `InvalidInstant` when the fields are not constructible) and then
runs the resolve/project/render pipeline. The pipeline past the datetime
construction (Skyfield resolution and matplotlib rasterisation) is opaque
to every claim and is passed in as the fallible function `pipeline`. -/
def StarMapGenerator.generate (pipeline : GenParams → Except GenError Bytes)
    (p : GenParams) : Except GenError Bytes :=
  if datetimeValid p.year p.month p.day p.hour p.minute then pipeline p
  else .error .invalidInstant

/-! ## Service layer (`app/services/starmap.py`) -/

/-- `_round_coords`' rounding of one coordinate to 4 decimal places
(`round(x, 4)`): `⌊q·10⁴ + 1/2⌋ / 10⁴` computed on the numerator and
denominator directly (for `q = n/d`, `⌊q·10⁴ + 1/2⌋ = fdiv (2·n·10⁴ + d) (2·d)`).
CPython resolves exact halves to the even neighbour rather than upward; no
claim distinguishes the two tie conventions. -/
def round4 (q : ℚ) : ℚ :=
  mkRat (Int.fdiv (2 * (q.num * 10000) + q.den) (2 * q.den)) 10000

/-- The exact-match cache-lookup predicate of `generate_or_get_cached`:
all eight fingerprint fields, and nothing else (in particular not the
title), are compared. -/
def fpMatch (lat lon : ℚ) (y mo d h mi tz : ℤ) (e : CachedStarmap) : Bool :=
  e.latitude == lat && e.longitude == lon &&
  e.year == y && e.month == mo && e.day == d &&
  e.hour == h && e.minute == mi && e.timezone_offset == tz

/-- The `GenParams` that `generate_or_get_cached` passes to the generator:
rounded coordinates, the raw date/time/offset fields, and
`request.title or "THE NIGHT SKY"` (Python `or`: an empty string also
falls back to the default). -/
def requestParams (r : GenerateRequest) : GenParams :=
  { latitude := round4 r.latitude
    longitude := round4 r.longitude
    year := r.year
    month := r.month
    day := r.day
    hour := r.hour
    minute := r.minute
    timezone_offset := r.timezone_offset
    title := match r.title with
      | none => "THE NIGHT SKY"
      | some t => if t = "" then "THE NIGHT SKY" else t }

/-- `generate_or_get_cached`: looks up the cache by the eight normalized
fingerprint fields; on a hit returns the stored bytes and id with
`cache_hit = true`; on a miss runs the generator and, only if it succeeds,
inserts a new row (fresh id, `created_at := now`) and returns
`cache_hit = false`. Returns the result together with the resulting cache
state (unchanged on hit and on generation failure). -/
def generate_or_get_cached (pipeline : GenParams → Except GenError Bytes)
    (now : ℤ) (db : CacheDB) (r : GenerateRequest) :
    Except GenError (Bytes × Nat × Bool) × CacheDB :=
  let lat := round4 r.latitude
  let lon := round4 r.longitude
  match db.entries.find? (fpMatch lat lon r.year r.month r.day r.hour r.minute r.timezone_offset) with
  | some cached => (.ok (cached.image_data, cached.id, true), db)
  | none =>
    match StarMapGenerator.generate pipeline (requestParams r) with
    | .error e => (.error e, db)
    | .ok img =>
      (.ok (img, db.nextId, false),
       ⟨db.entries ++
          [{ id := db.nextId
             latitude := lat, longitude := lon
             year := r.year, month := r.month, day := r.day
             hour := r.hour, minute := r.minute
             timezone_offset := r.timezone_offset
             image_data := img, created_at := now }],
        db.nextId + 1⟩)

/-- Errors of `save_to_storage`: the `ValueError` raised when the cache id
is unknown (mapped to HTTP 404 by the router), and the `ValueError` a
non-constructible stored datetime would raise. -/
inductive SaveError where
  | notFound
  | invalidDate
deriving DecidableEq

/-- `save_to_storage`: looks up the cache entry by id (raising `notFound`
when absent), reconstructs `observed_at` as
`datetime(year, month, day, hour, minute, tzinfo=timezone(timedelta(hours=timezone_offset)))`
from the entry's stored fields, and inserts a copy into permanent storage.
Returns the result together with the resulting states of both stores; the
cache store is never written. -/
def save_to_storage (now : ℤ) (dbc : CacheDB) (dbs : StorageDB)
    (cache_id : Nat) (title : Option String) :
    Except SaveError Starmap × CacheDB × StorageDB :=
  match dbc.entries.find? (fun e => e.id == cache_id) with
  | none => (.error .notFound, dbc, dbs)
  | some cached =>
    if datetimeValid cached.year cached.month cached.day cached.hour cached.minute then
      let starmap : Starmap :=
        { id := dbs.nextId
          latitude := cached.latitude
          longitude := cached.longitude
          observed_at :=
            { year := cached.year, month := cached.month, day := cached.day
              hour := cached.hour, minute := cached.minute
              offsetHours := some cached.timezone_offset }
          timezone_offset := cached.timezone_offset
          title := title
          image_data := cached.image_data
          created_at := now }
      (.ok starmap, dbc, ⟨dbs.entries ++ [starmap], dbs.nextId + 1⟩)
    else (.error .invalidDate, dbc, dbs)

/-- `cleanup_old_cache`: one retention sweep. Computes
`cutoff = now - timedelta(hours=max_age_hours)` once and bulk-deletes every
row with `created_at < cutoff`. Timestamps are in seconds. -/
def cleanup_old_cache (now : ℤ) (db : CacheDB) (max_age_hours : ℤ) : CacheDB :=
  let cutoff := now - max_age_hours * 3600
  ⟨db.entries.filter fun e => !decide (e.created_at < cutoff), db.nextId⟩

/-- Modelled from the spec: the UTC-normalized instant (in epoch minutes)
of "`(year, month, day, hour, minute)` interpreted at `utc_offset_hours`",
the reference value the promotion claim compares `observed_at` against. -/
def specObservedUtcMinutes (y mo d h mi tz : ℤ) : ℤ :=
  epochMinutes y mo d h mi - 60 * tz

/-! ## Concrete sample data used by witnesses -/

/-- A resolve/project/render pipeline that always succeeds with fixed bytes. -/
def constPipeline : GenParams → Except GenError Bytes := fun _ => .ok [1, 2, 3]

/-- A resolve/project/render pipeline that always fails. -/
def failPipeline : GenParams → Except GenError Bytes := fun _ => .error .generationFailure

/-- The spec's scenario request: lat 40.7128, lon −74.0060, 2024-06-15 22:30,
offset −4, no title. -/
def sampleRequest : GenerateRequest :=
  ⟨mkRat 407128 10000, mkRat (-740060) 10000, 2024, 6, 15, 22, 30, -4, none⟩

/-- A cache row carrying the sample request's fingerprint. -/
def sampleEntry : CachedStarmap :=
  ⟨7, round4 (mkRat 407128 10000), round4 (mkRat (-740060) 10000),
   2024, 6, 15, 22, 30, -4, [9, 9], 0⟩

/-- A cache store holding exactly the sample row. -/
def sampleCache : CacheDB := ⟨[sampleEntry], 8⟩

/-! ## Theorems for the claims -/

/-- **C2** Retention sweep exactness: after one invocation of
`cleanup_old_cache` with a given `now` and `max_age_hours`, a cache row is
present iff it was present before and its `created_at` is not older than
the single cutoff `now - max_age_hours` (computed once per invocation);
every strictly older row is absent and every other row survives unchanged. -/
theorem cleanup_old_cache_mem (now max_age_hours : ℤ) (db : CacheDB) (e : CachedStarmap) :
    e ∈ (cleanup_old_cache now db max_age_hours).entries ↔
      e ∈ db.entries ∧ ¬ e.created_at < now - max_age_hours * 3600 := by
  simp [cleanup_old_cache, List.mem_filter]

/-- **C6** Visibility selection predicate: a star is kept by the visibility
filter iff it is in the catalog, its altitude is strictly greater than 0,
and its magnitude is at most the limiting magnitude (6.0); every star with
altitude ≤ 0 or magnitude above the threshold is excluded. -/
theorem visibleStars_mem (stars : List ObservedStar) (s : ObservedStar) :
    s ∈ visibleStars stars ↔
      s ∈ stars ∧ s.alt > 0 ∧ s.magnitude ≤ LIMITING_MAGNITUDE := by
  simp [visibleStars, List.mem_filter, and_assoc]

/-- **C7** Stereographic projection formula and boundary invariant: the
projected radius is `cos(alt)/(1 + sin(alt))` with `x = r·sin(az)` and
`y = -r·cos(az)`; altitude 90° projects to the image center (`r = 0`, and
`(x, y) = (0, 0)` for every azimuth) and altitude 0° projects to the unit
boundary (`r = 1`, and `x² + y² = 1` for every azimuth). -/
theorem projection_boundary :
    (∀ alt az : ℝ,
        projR alt = Real.cos (radians alt) / (1 + Real.sin (radians alt)) ∧
        projX alt az = projR alt * Real.sin (radians az) ∧
        projY alt az = -(projR alt * Real.cos (radians az))) ∧
    projR 90 = 0 ∧ projR 0 = 1 ∧
    (∀ az : ℝ, projX 90 az = 0 ∧ projY 90 az = 0) ∧
    (∀ az : ℝ, (projX 0 az) ^ 2 + (projY 0 az) ^ 2 = 1) := by
  have h90 : radians 90 = Real.pi / 2 := by
    unfold radians; ring
  have h0 : radians 0 = 0 := by
    unfold radians; ring
  have hr90 : projR 90 = 0 := by
    unfold projR
    rw [h90, Real.cos_pi_div_two, Real.sin_pi_div_two]
    norm_num
  have hr0 : projR 0 = 1 := by
    unfold projR
    rw [h0, Real.cos_zero, Real.sin_zero]
    norm_num
  refine ⟨fun alt az => ⟨rfl, rfl, rfl⟩, hr90, hr0, ?_, ?_⟩
  · intro az
    unfold projX projY
    rw [hr90]
    constructor <;> ring
  · intro az
    unfold projX projY
    rw [hr0]
    have := Real.sin_sq_add_cos_sq (radians az)
    nlinarith [this]

/-- **C8 (counterexample)** The marker-size formula is not strictly
decreasing over all magnitudes: at limiting magnitude 6.0, magnitudes 7 and
9 satisfy `7 < 9` but `markerSize 7 = 0 < 8 = markerSize 9`. -/
theorem markerSize_not_globally_decreasing :
    (7 : ℚ) < 9 ∧ ¬ markerSize 7 > markerSize 9 := by
  constructor
  · norm_num
  · norm_num [markerSize, LIMITING_MAGNITUDE]

/-- **C8 (amended)** Marker-size monotonicity on the magnitudes the code
computes sizes for, and global non-negativity: for magnitudes
`m₁ < m₂ ≤ LIMITING_MAGNITUDE` (the visibility filter admits only
magnitudes at most the limiting magnitude) the marker size strictly
decreases, and `markerSize m` is non-negative for every magnitude `m`. -/
theorem markerSize_decreasing_nonneg :
    (∀ m₁ m₂ : ℚ, m₁ < m₂ → m₂ ≤ LIMITING_MAGNITUDE →
        markerSize m₁ > markerSize m₂) ∧
    (∀ m : ℚ, 0 ≤ markerSize m) := by
  constructor
  · intro m₁ m₂ h12 h2
    unfold markerSize LIMITING_MAGNITUDE at *
    nlinarith [sq_nonneg (6 - m₂ + 1), sq_nonneg (6 - m₁ + 1)]
  · intro m
    unfold markerSize
    positivity

/-- Witness for **C8 (amended)** at concrete magnitudes 1 < 2 ≤ 6. -/
theorem markerSize_decreasing_nonneg_witness :
    markerSize 1 > markerSize 2 ∧ 0 ≤ markerSize 5 :=
  ⟨markerSize_decreasing_nonneg.1 1 2 (by norm_num)
      (by norm_num [LIMITING_MAGNITUDE]),
   markerSize_decreasing_nonneg.2 5⟩

/-- **C1** Cache idempotence of `generate_or_get_cached`: if a first call
returns bytes `B`, id `X` and `cache_hit = false` leaving cache state
`db'`, then any second call on `db'` with identical normalized fields
(rounded latitude and longitude, year, month, day, hour, minute,
utc offset) returns the same `B` and `X` with `cache_hit = true`,
performing no generation (the pipeline of the second call is arbitrary and
unused) and leaving the cache unchanged. -/
theorem generate_then_hit
    (pipeline pipeline' : GenParams → Except GenError Bytes)
    (now now' : ℤ) (db db' : CacheDB) (r r' : GenerateRequest)
    (B : Bytes) (X : Nat)
    (hfirst : generate_or_get_cached pipeline now db r = (.ok (B, X, false), db'))
    (hlat : round4 r'.latitude = round4 r.latitude)
    (hlon : round4 r'.longitude = round4 r.longitude)
    (hy : r'.year = r.year) (hmo : r'.month = r.month) (hd : r'.day = r.day)
    (hh : r'.hour = r.hour) (hmi : r'.minute = r.minute)
    (htz : r'.timezone_offset = r.timezone_offset) :
    generate_or_get_cached pipeline' now' db' r' = (.ok (B, X, true), db') := by
  unfold generate_or_get_cached at hfirst ⊢
  dsimp only at hfirst ⊢
  rw [hlat, hlon, hy, hmo, hd, hh, hmi, htz]
  cases hfind : db.entries.find?
      (fpMatch (round4 r.latitude) (round4 r.longitude) r.year r.month r.day
        r.hour r.minute r.timezone_offset) with
  | some c =>
    rw [hfind] at hfirst
    simp at hfirst
  | none =>
    rw [hfind] at hfirst
    cases hgen : StarMapGenerator.generate pipeline (requestParams r) with
    | error e =>
      rw [hgen] at hfirst
      simp at hfirst
    | ok img =>
      rw [hgen] at hfirst
      simp only [Prod.mk.injEq, Except.ok.injEq] at hfirst
      obtain ⟨⟨hB, hX, -⟩, hdb'⟩ := hfirst
      subst hdb' hB hX
      simp [List.find?_append, hfind, List.find?, fpMatch]

/-- Witness for **C1**: the spec's scenario request generated into an empty
cache, then requested again. -/
theorem generate_then_hit_witness :
    generate_or_get_cached constPipeline 1
        (generate_or_get_cached constPipeline 0 emptyCache sampleRequest).2 sampleRequest
      = (.ok ([1, 2, 3], 0, true),
         (generate_or_get_cached constPipeline 0 emptyCache sampleRequest).2) :=
  generate_then_hit constPipeline constPipeline 0 1 emptyCache _
    sampleRequest sampleRequest [1, 2, 3] 0
    rfl rfl rfl rfl rfl rfl rfl rfl rfl

/-- **C5** Generation-failure atomicity: on a cache miss, if the generator
fails, `generate_or_get_cached` propagates the error and the cache store is
unchanged — no entry is inserted. -/
theorem generation_failure_atomic
    (pipeline : GenParams → Except GenError Bytes)
    (now : ℤ) (db : CacheDB) (r : GenerateRequest) (e : GenError)
    (hmiss : db.entries.find?
        (fpMatch (round4 r.latitude) (round4 r.longitude) r.year r.month r.day
          r.hour r.minute r.timezone_offset) = none)
    (hfail : StarMapGenerator.generate pipeline (requestParams r) = .error e) :
    generate_or_get_cached pipeline now db r = (.error e, db) := by
  unfold generate_or_get_cached
  dsimp only
  rw [hmiss, hfail]

/-- Witness for **C5**: a failing pipeline on an empty cache. -/
theorem generation_failure_atomic_witness :
    generate_or_get_cached failPipeline 0 emptyCache sampleRequest
      = (.error .generationFailure, emptyCache) :=
  generation_failure_atomic failPipeline 0 emptyCache sampleRequest
    .generationFailure (by decide) rfl

/-- **C9** Title noninterference on cache hit: the title is not part of the
cache-lookup key, so two requests with equal normalized fingerprint fields
(titles arbitrary, in particular different) that find an existing matching
entry both receive exactly the stored bytes and id with `cache_hit = true`,
and the served image is the stored one regardless of either request's
title. -/
theorem title_noninterference
    (pipeline₁ pipeline₂ : GenParams → Except GenError Bytes)
    (now₁ now₂ : ℤ) (db : CacheDB) (r₁ r₂ : GenerateRequest) (c : CachedStarmap)
    (hlat : round4 r₂.latitude = round4 r₁.latitude)
    (hlon : round4 r₂.longitude = round4 r₁.longitude)
    (hy : r₂.year = r₁.year) (hmo : r₂.month = r₁.month) (hd : r₂.day = r₁.day)
    (hh : r₂.hour = r₁.hour) (hmi : r₂.minute = r₁.minute)
    (htz : r₂.timezone_offset = r₁.timezone_offset)
    (hfind : db.entries.find?
        (fpMatch (round4 r₁.latitude) (round4 r₁.longitude) r₁.year r₁.month
          r₁.day r₁.hour r₁.minute r₁.timezone_offset) = some c) :
    generate_or_get_cached pipeline₁ now₁ db r₁ = (.ok (c.image_data, c.id, true), db) ∧
    generate_or_get_cached pipeline₂ now₂ db r₂ = (.ok (c.image_data, c.id, true), db) := by
  unfold generate_or_get_cached
  dsimp only
  rw [hlat, hlon, hy, hmo, hd, hh, hmi, htz, hfind]
  exact ⟨rfl, rfl⟩

/-- Witness for **C9**: two requests differing only in title against a
cache already holding their shared fingerprint. -/
theorem title_noninterference_witness :
    generate_or_get_cached constPipeline 3 sampleCache sampleRequest
        = (.ok ([9, 9], 7, true), sampleCache) ∧
    generate_or_get_cached failPipeline 4 sampleCache
        { sampleRequest with title := some "A DIFFERENT TITLE" }
        = (.ok ([9, 9], 7, true), sampleCache) :=
  title_noninterference constPipeline failPipeline 3 4 sampleCache
    sampleRequest { sampleRequest with title := some "A DIFFERENT TITLE" }
    sampleEntry rfl rfl rfl rfl rfl rfl rfl rfl (by decide)

/-- The concrete request of **C10**: every schema range check passes
(month 2 is in 1–12, day 30 is in 1–31) but the calendar date 2024-02-30
does not exist. -/
def invalidDateRequest : GenerateRequest :=
  ⟨mkRat 407128 10000, mkRat (-740060) 10000, 2024, 2, 30, 22, 30, -4, none⟩

/-- **C10** Calendar validity is not checked at the boundary: the request
2024-02-30 22:30 passes every schema range check, yet its date is not
constructible, so for every pipeline the generation step fails with
`InvalidInstant` and — generation happening before insertion — no cache
entry is written: the cache store stays empty. -/
theorem schema_accepts_invalid_calendar_date :
    validRequest invalidDateRequest = true ∧
    dateValid invalidDateRequest.year invalidDateRequest.month invalidDateRequest.day = false ∧
    ∀ (pipeline : GenParams → Except GenError Bytes) (now : ℤ),
      generate_or_get_cached pipeline now emptyCache invalidDateRequest =
        (.error .invalidInstant, emptyCache) := by
  refine ⟨by decide, by decide, fun pipeline now => ?_⟩
  have hdv : datetimeValid 2024 2 30 22 30 = false := by decide
  simp [generate_or_get_cached, StarMapGenerator.generate, invalidDateRequest,
    emptyCache, requestParams, hdv]

/-- **C4** Promotion not-found and cache atomicity: promoting a cache id
that matches no entry fails with the not-found error and leaves both
stores unchanged; and for every cache id (matching or not) promotion never
deletes or modifies the cache store. -/
theorem promote_notFound_and_cache_untouched
    (now : ℤ) (dbc : CacheDB) (dbs : StorageDB) (cid : Nat) (title : Option String) :
    (dbc.entries.find? (fun e => e.id == cid) = none →
       save_to_storage now dbc dbs cid title = (.error .notFound, dbc, dbs)) ∧
    (save_to_storage now dbc dbs cid title).2.1 = dbc := by
  constructor
  · intro h
    unfold save_to_storage
    rw [h]
  · unfold save_to_storage
    cases h : dbc.entries.find? (fun e => e.id == cid) with
    | none => rfl
    | some c =>
      dsimp only
      split <;> rfl

/-- Witness for **C4**: promoting an unknown id from empty stores. -/
theorem promote_notFound_witness :
    save_to_storage 0 emptyCache emptyStorage 5 none
      = (.error .notFound, emptyCache, emptyStorage) :=
  (promote_notFound_and_cache_untouched 0 emptyCache emptyStorage 5 none).1 (by decide)

/-- **C3** Promotion timestamp reconstruction: promoting a cache entry
found in the store produces a permanent record whose `observed_at` is
timezone-aware with exactly the entry's stored offset, and whose
UTC-normalized instant equals the entry's `(year, month, day, hour,
minute)` interpreted at that fixed offset. -/
theorem promote_reconstructs_observed_at
    (now : ℤ) (dbc : CacheDB) (dbs : StorageDB) (cid : Nat)
    (title : Option String) (c : CachedStarmap)
    (hfind : dbc.entries.find? (fun e => e.id == cid) = some c)
    (hvalid : datetimeValid c.year c.month c.day c.hour c.minute = true) :
    ∃ (sm : Starmap) (dbs' : StorageDB),
      save_to_storage now dbc dbs cid title = (.ok sm, dbc, dbs') ∧
      sm.observed_at.offsetHours = some c.timezone_offset ∧
      sm.observed_at.utcEpochMinutes =
        specObservedUtcMinutes c.year c.month c.day c.hour c.minute c.timezone_offset := by
  unfold save_to_storage
  rw [hfind]
  simp only [hvalid, if_true]
  exact ⟨_, _, rfl, rfl, by
    simp [AwareDateTime.utcEpochMinutes, specObservedUtcMinutes]⟩

/-- Witness for **C3**: promoting the sample entry. -/
theorem promote_observed_at_witness :
    ∃ (sm : Starmap) (dbs' : StorageDB),
      save_to_storage 5 sampleCache emptyStorage 7 (some "trip")
          = (.ok sm, sampleCache, dbs') ∧
      sm.observed_at.offsetHours = some (-4) ∧
      sm.observed_at.utcEpochMinutes = specObservedUtcMinutes 2024 6 15 22 30 (-4) :=
  promote_reconstructs_observed_at 5 sampleCache emptyStorage 7 (some "trip")
    sampleEntry (by decide) (by decide)

end Starchart
